import Mathlib

/-!
# Verification of the sunapi-node client core

Shallow embedding of the `sunapi-node` TypeScript client (the `SunapiClient`
HTTP pipeline in `src/client.ts`, the event-condition normalizer in
`src/modules/events.ts`, and the aggregate `Sunapi` class in `src/sunapi.ts`).

JavaScript-specific conventions kept faithful in the embedding:
* `undefined` is `Option.none`; a possibly-absent string field is `Option String`.
* JS truthiness for strings: `""` and `undefined` are falsy (`truthyStr`).
* JS truthiness for numbers: `0` is falsy (`jsOrNum` models `a || d`).
* Time is an integer count of milliseconds (`new Date()` is a `now : Int`
  parameter threaded explicitly).
* Network I/O is an explicit oracle: each HTTP dispatch consumes the next
  element of a list of `RawOutcome`s, and each call to `login` consumes a
  `LoginReply` (or a transport error).  An axios response interceptor applies
  to every request made through the instance, including requests it itself
  re-issues, so the interceptor is embedded as a function recursing over the
  list of raw outcomes.
* A thrown JS exception is `Except.error`; a returned value is `Except.ok`.
-/

set_option autoImplicit false

namespace SunapiSpec

/-- JS `a || d` for an optional string: falls back on `undefined` or `""`. -/
def jsOrStr (a : Option String) (d : String) : String :=
  match a with
  | some s => if s = "" then d else s
  | none => d

/-- JS truthiness of a `string | undefined` value. -/
def truthyStr (a : Option String) : Bool :=
  match a with
  | some s => s ≠ ""
  | none => false

/-- JS `a || b` where both sides are `string | undefined`. -/
def jsOrOpt (a b : Option String) : Option String :=
  if truthyStr a then a else b

/-- JS `a || d` for an optional number: `undefined` and `0` are falsy. -/
def jsOrNum (a : Option Int) (d : Int) : Int :=
  match a with
  | some n => if n = 0 then d else n
  | none => d

/-- The fields of `SunapiConfig` that the error classifier reads. -/
structure Config where
  host : String
  port : Nat
  deriving Repr, DecidableEq

/-- `AuthToken` from `src/types.ts`.  `token` is `data.token || data.sessionId`
at the assignment site, which can be `undefined` in JS, hence `Option`. -/
structure AuthToken where
  token : Option String
  expiresAt : Int
  sessionId : Option String
  deriving Repr, DecidableEq

/-- The mutable session state of one `SunapiClient` instance:
`this.authToken` and `this.sessionId`. -/
structure ClientState where
  authToken : Option AuthToken
  sessionId : Option String
  deriving Repr, DecidableEq

/-- A fresh client: both fields start `undefined`. -/
def ClientState.initial : ClientState := { authToken := none, sessionId := none }

/-- The `name` discriminator of the `SunapiError` class hierarchy in
`src/types.ts`. -/
inductive ErrName where
  | sunapi
  | authentication
  | connection
  | validation
  deriving Repr, DecidableEq

/-- A `SunapiError` value: `name`, `message`, optional `statusCode`.
The subclass constructors fix the code: `AuthenticationError` is 401,
`ConnectionError` is 0, `ValidationError` is 400. -/
structure SunapiError where
  name : ErrName
  message : String
  statusCode : Option Nat
  deriving Repr, DecidableEq

/-- `new AuthenticationError(msg)`: statusCode 401. -/
def authenticationError (msg : String) : SunapiError :=
  { name := ErrName.authentication, message := msg, statusCode := some 401 }

/-- `new ConnectionError(msg)`: statusCode 0. -/
def connectionError (msg : String) : SunapiError :=
  { name := ErrName.connection, message := msg, statusCode := some 0 }

/-- The part of an `AxiosError`'s attached HTTP response that
`handleError` reads: the status and `responseData?.message`. -/
structure ErrResponse where
  status : Nat
  message : Option String
  deriving Repr, DecidableEq

/-- The fields of an `AxiosError` that the client inspects: the transport
error `code`, the error `message`, and the optional HTTP response. -/
structure AxiosErrorModel where
  code : Option String
  message : String
  response : Option ErrResponse
  deriving Repr, DecidableEq

/-- `SunapiClient.handleError` (src/client.ts): connection codes first,
then errors that carry an HTTP response (401 is special-cased), then a
bare `SunapiError` with no status code. -/
def handleError (cfg : Config) (e : AxiosErrorModel) : SunapiError :=
  if e.code = some "ECONNREFUSED" ∨ e.code = some "ENOTFOUND" then
    connectionError ("Cannot connect to " ++ cfg.host ++ ":" ++ toString cfg.port)
  else
    match e.response with
    | some r =>
      let message := jsOrStr r.message e.message
      if r.status = 401 then
        authenticationError message
      else
        { name := ErrName.sunapi, message := message, statusCode := some r.status }
    | none => { name := ErrName.sunapi, message := e.message, statusCode := none }

/-- The `SunapiResponse<T>` result envelope from `src/types.ts`.  Absent
optional fields are `none`. -/
structure SunapiResponse (α : Type) where
  success : Bool
  data : Option α := none
  error : Option String := none
  statusCode : Option Nat := none
  deriving Repr, DecidableEq

/-- The JSON body the device returns from the `userlogin` endpoint, as read
by `SunapiClient.login`. -/
structure LoginReply where
  status : String
  token : Option String
  sessionId : Option String
  expires : Option Int
  message : Option String
  userLevel : Option String
  maxSessions : Option Int
  deriving Repr, DecidableEq

/-- The `LoginResponse` data the client returns on a successful login. -/
structure LoginData where
  token : Option String
  sessionId : Option String
  userLevel : String
  maxSessions : Int
  deriving Repr, DecidableEq

/-- `SunapiClient.login` (src/client.ts).  The network interaction is the
explicit `reply` argument: `Except.error e` is the POST rejecting with
an axios error, `Except.ok r` is the device's JSON body.  On `status = "OK"`
the session state is overwritten; otherwise an `AuthenticationError` with
the server message is thrown, and a transport failure is rethrown after
classification by `handleError` (a `SunapiError` is rethrown unchanged).
The login POST itself travels through the instance's interceptors, so
`reply` stands for the post-interceptor outcome of that POST; an error the
interceptor has already classified rethrows identically because
`handleError` is what the interceptor applied. -/
def login (cfg : Config) (now : Int) (st : ClientState)
    (reply : Except AxiosErrorModel LoginReply) :
    ClientState × Except SunapiError (SunapiResponse LoginData) :=
  match reply with
  | Except.error e => (st, Except.error (handleError cfg e))
  | Except.ok r =>
    if r.status = "OK" then
      let tok : AuthToken :=
        { token := jsOrOpt r.token r.sessionId
          expiresAt := now + (jsOrNum r.expires 3600) * 1000
          sessionId := r.sessionId }
      ({ authToken := some tok, sessionId := r.sessionId },
       Except.ok
         { success := true
           data := some
             { token := tok.token
               sessionId := r.sessionId
               userLevel := jsOrStr r.userLevel "admin"
               maxSessions := jsOrNum r.maxSessions 10 } })
    else
      (st, Except.error (authenticationError (jsOrStr r.message "Login failed")))

/-- `SunapiClient.isAuthenticated`: `!!(this.authToken && this.authToken.expiresAt > new Date())`. -/
def isAuthenticated (st : ClientState) (now : Int) : Bool :=
  match st.authToken with
  | some t => now < t.expiresAt
  | none => false

/-- `SunapiClient.logout`.  `networkThrows` says whether the best-effort
logout POST rejects; either way the local state is cleared and
`{ success: true }` is returned.  When no token is held the method returns
early without touching `sessionId`. -/
def logout (st : ClientState) (_networkThrows : Bool) :
    ClientState × SunapiResponse Unit :=
  match st.authToken with
  | none => (st, { success := true })
  | some _ =>
    ({ authToken := none, sessionId := none }, { success := true })

/-- Placeholder rejection used when the oracle of scripted network outcomes
runs out; every theorem below supplies enough outcomes to avoid it. -/
def oracleExhausted : SunapiError :=
  { name := ErrName.sunapi, message := "oracle exhausted", statusCode := none }

/-- `SunapiClient.ensureAuthenticated`: logs in when not authenticated;
throws `AuthenticationError` when the login result reports failure.
Consumes at most one login reply from the oracle list and returns the rest. -/
def ensureAuthenticated (cfg : Config) (now : Int) (st : ClientState)
    (logins : List (Except AxiosErrorModel LoginReply)) :
    ClientState × Except SunapiError Unit × List (Except AxiosErrorModel LoginReply) :=
  if isAuthenticated st now then
    (st, Except.ok (), logins)
  else
    match logins with
    | [] => (st, Except.error oracleExhausted, [])
    | l :: ls =>
      let p := login cfg now st l
      match p.2 with
      | Except.ok env =>
        if env.success then (p.1, Except.ok (), ls)
        else (p.1, Except.error (authenticationError "Failed to authenticate"), ls)
      | Except.error e => (p.1, Except.error e, ls)

/-- One raw outcome of dispatching an HTTP request through the transport,
before the response interceptor runs: either a resolved response
(status, body) or an axios rejection. -/
inductive RawOutcome (α : Type) where
  | ok (status : Nat) (data : α)
  | err (e : AxiosErrorModel)
  deriving Repr, DecidableEq

/-- The guard of the response interceptor's refresh branch:
`error.response?.status === 401 && this.authToken`. -/
def triggers401 (st : ClientState) (e : AxiosErrorModel) : Bool :=
  (match e.response with
   | some r => r.status = 401
   | none => false) && st.authToken.isSome

/-- The error thrown when the in-interceptor re-login itself fails. -/
def refreshFailedError : SunapiError :=
  authenticationError "Session expired and refresh failed"

/-- The axios dispatch as mediated by the response interceptor of
`SunapiClient.setupInterceptors` (src/client.ts).  Each list element is the
raw outcome of one underlying HTTP attempt of this logical call.  On a 401
rejection while `this.authToken` is held, the interceptor awaits
`this.login()` and, when it succeeds, re-issues the original request through
the same instance — so the retry passes through this same interceptor again
(the code sets no retry flag on the config).  When the re-login throws, an
`AuthenticationError('Session expired and refresh failed')` is thrown
instead.  Any other rejection is rethrown as `handleError` of the error.
Returns the final state, the settled outcome (`ok (status, data)` or the
thrown `SunapiError`), and how many re-login attempts were made. -/
def dispatch {α : Type} (cfg : Config) (now : Int) :
    List (RawOutcome α) → ClientState → List (Except AxiosErrorModel LoginReply) →
    ClientState × Except SunapiError (Nat × α) × Nat
  | [], st, _ => (st, Except.error oracleExhausted, 0)
  | RawOutcome.ok status d :: _, st, _ => (st, Except.ok (status, d), 0)
  | RawOutcome.err e :: rest, st, logins =>
    if triggers401 st e then
      match logins with
      | [] => (st, Except.error oracleExhausted, 0)
      | l :: ls =>
        let p := login cfg now st l
        match p.2 with
        | Except.ok _ =>
          let q := dispatch cfg now rest p.1 ls
          (q.1, q.2.1, q.2.2 + 1)
        | Except.error _ => (p.1, Except.error refreshFailedError, 1)
    else
      (st, Except.error (handleError cfg e), 0)

/-- `SunapiClient.request` (src/client.ts): awaits `ensureAuthenticated`
(whose failure propagates as a thrown error), dispatches the call, and
catches everything the dispatch throws into a `success:false` envelope
carrying the error's message and status code.  The outer `Except` is what
the caller of `request` observes: `Except.error` means a fault escaped. -/
def request {α : Type} (cfg : Config) (now : Int) (st : ClientState)
    (raws : List (RawOutcome α))
    (logins : List (Except AxiosErrorModel LoginReply)) :
    ClientState × Except SunapiError (SunapiResponse α) :=
  let a := ensureAuthenticated cfg now st logins
  match a.2.1 with
  | Except.error e => (a.1, Except.error e)
  | Except.ok _ =>
    let q := dispatch cfg now raws a.1 a.2.2
    match q.2.1 with
    | Except.ok sd =>
      (q.1, Except.ok { success := true, data := some sd.2, statusCode := some sd.1 })
    | Except.error e =>
      (q.1, Except.ok { success := false, error := some e.message, statusCode := e.statusCode })

/-- The `{ alive: boolean }` payload of `SunapiClient.ping`. -/
structure PingData where
  alive : Bool
  deriving Repr, DecidableEq

/-- `SunapiClient.ping` (src/client.ts): a bare GET (no
`ensureAuthenticated`), with a catch-all that returns
`{ success: false, data: { alive: false }, error: 'Device unreachable' }`. -/
def ping {α : Type} (cfg : Config) (now : Int) (st : ClientState)
    (raws : List (RawOutcome α))
    (logins : List (Except AxiosErrorModel LoginReply)) :
    ClientState × SunapiResponse PingData :=
  let q := dispatch cfg now raws st logins
  match q.2.1 with
  | Except.ok sd =>
    (q.1, { success := true, data := some { alive := true }, statusCode := some sd.1 })
  | Except.error _ =>
    (q.1, { success := false, data := some { alive := false }, error := some "Device unreachable" })

/-- The shared wrapper pattern of every feature-module accessor (for example
`SystemModule.getDeviceInfo`, `EventModule.getEventRules`): when
`response.success && response.data`, re-wrap the parsed data as a fresh
success envelope keeping the status code; otherwise `return response`
unchanged. -/
def moduleWrap {α β : Type} (resp : SunapiResponse α) (f : α → β) :
    SunapiResponse (α ⊕ β) :=
  if resp.success ∧ resp.data.isSome then
    { success := true
      data := (resp.data.map f).map Sum.inr
      statusCode := resp.statusCode }
  else
    { success := resp.success
      data := resp.data.map Sum.inl
      error := resp.error
      statusCode := resp.statusCode }

/-- The headers added by the request interceptor of
`SunapiClient.setupInterceptors`: `Authorization: Bearer <token>` only when
a token is held *and* `expiresAt > new Date()`, and `X-Session-ID` when
`this.sessionId` is truthy. -/
structure Headers where
  authorization : Option String
  xSessionId : Option String
  deriving Repr, DecidableEq

/-- The request interceptor (src/client.ts, `setupInterceptors`). -/
def requestInterceptor (st : ClientState) (now : Int) : Headers :=
  { authorization :=
      match st.authToken with
      | some t =>
        if now < t.expiresAt then some ("Bearer " ++ (t.token.getD "undefined")) else none
      | none => none
    xSessionId := if truthyStr st.sessionId then st.sessionId else none }

/-- `EventCondition` from `src/types.ts`.  `Record<string, any>` parameter
maps are embedded as association lists. -/
structure EventCondition where
  type : String
  parameters : List (String × String)
  deriving Repr, DecidableEq

/-- One element of a parsed conditions array, with the two fields
`EventModule.parseConditions` reads (either may be absent). -/
structure CondItem where
  type : Option String
  parameters : Option (List (String × String))
  deriving Repr, DecidableEq

/-- The dynamic (`any`) value held by a rule's `conditions` field: a string,
an array of condition objects, or anything else. -/
inductive CondRaw where
  | str (s : String)
  | arr (items : List CondItem)
  | other
  deriving Repr, DecidableEq

/-- `EventModule.parseConditions` (src/modules/events.ts).  `JSON.parse` is
the external `jsonParse` oracle; `none` is a parse failure (the `catch`
branch returns `[]`).  A non-array value also yields `[]`; array elements
are normalized with `condition.type || ''` and `condition.parameters || {}`. -/
def parseConditions (jsonParse : String → Option CondRaw) (raw : CondRaw) :
    List EventCondition :=
  let v : Option CondRaw :=
    match raw with
    | CondRaw.str s => jsonParse s
    | x => some x
  match v with
  | some (CondRaw.arr items) =>
    items.map (fun c => { type := jsOrStr c.type "", parameters := c.parameters.getD [] })
  | _ => []

/-- The state of the aggregate `Sunapi` class (src/sunapi.ts): its own
inherited `SunapiClient` state plus the five independently constructed
feature modules, each with its own session state. -/
structure SunapiState where
  core : ClientState
  system : ClientState
  video : ClientState
  ptz : ClientState
  events : ClientState
  recording : ClientState
  deriving Repr, DecidableEq

/-- A fresh `new Sunapi(config)`: every module starts unauthenticated. -/
def SunapiState.initial : SunapiState :=
  { core := ClientState.initial
    system := ClientState.initial
    video := ClientState.initial
    ptz := ClientState.initial
    events := ClientState.initial
    recording := ClientState.initial }

/-- `Sunapi.connect` (src/sunapi.ts): logs in on the aggregate client, throws
on failure, and — when both `authToken` and `sessionId` are truthy — copies
both onto each of the five feature modules. -/
def connect (cfg : Config) (now : Int) (st : SunapiState)
    (reply : Except AxiosErrorModel LoginReply) :
    SunapiState × Except SunapiError Unit :=
  let p := login cfg now st.core reply
  match p.2 with
  | Except.error e => ({ st with core := p.1 }, Except.error e)
  | Except.ok env =>
    if env.success = false then
      ({ st with core := p.1 },
       Except.error
         { name := ErrName.sunapi
           message := "Failed to connect: " ++ env.error.getD "undefined"
           statusCode := none })
    else
      if p.1.authToken.isSome && truthyStr p.1.sessionId then
        ({ core := p.1
           system := { st.system with authToken := p.1.authToken, sessionId := p.1.sessionId }
           video := { st.video with authToken := p.1.authToken, sessionId := p.1.sessionId }
           ptz := { st.ptz with authToken := p.1.authToken, sessionId := p.1.sessionId }
           events := { st.events with authToken := p.1.authToken, sessionId := p.1.sessionId }
           recording := { st.recording with authToken := p.1.authToken, sessionId := p.1.sessionId } },
         Except.ok ())
      else
        ({ st with core := p.1 }, Except.ok ())

/-! ## Concrete fixtures used by witnesses and counterexamples -/

/-- The sample device address used throughout the repository's docs/tests. -/
def cfg0 : Config := { host := "192.168.1.100", port := 80 }

/-- A held, unexpired token (relative to `now = 0`). -/
def tokenA : AuthToken := { token := some "tokA", expiresAt := 1000, sessionId := some "sessA" }

/-- A client holding a live session. -/
def stAuth : ClientState := { authToken := some tokenA, sessionId := some "sessA" }

/-- An axios rejection carrying an HTTP 401 response. -/
def err401 : AxiosErrorModel :=
  { code := none, message := "Request failed with status code 401"
    response := some { status := 401, message := none } }

/-- An axios rejection carrying an HTTP 500 response with a body message. -/
def err500 : AxiosErrorModel :=
  { code := none, message := "Request failed with status code 500"
    response := some { status := 500, message := some "Internal server error" } }

/-- A transport-level connection failure (no HTTP response). -/
def errConn : AxiosErrorModel :=
  { code := some "ECONNREFUSED", message := "connect ECONNREFUSED", response := none }

/-- A timeout rejection: no connection code, no HTTP response. -/
def errTimeout : AxiosErrorModel :=
  { code := none, message := "timeout of 30000ms exceeded", response := none }

/-- A successful login body with no declared lifetime. -/
def replyOK : LoginReply :=
  { status := "OK", token := some "tokB", sessionId := some "sessB"
    expires := none, message := none, userLevel := none, maxSessions := none }

/-- A rejected login body. -/
def replyFail : LoginReply :=
  { status := "Fail", token := none, sessionId := none
    expires := none, message := some "Invalid credentials", userLevel := none
    maxSessions := none }

/-- A successful login body that declares a lifetime of `0` seconds. -/
def replyZeroExpires : LoginReply :=
  { status := "OK", token := some "tok", sessionId := some "sess"
    expires := some 0, message := none, userLevel := none, maxSessions := none }

/-! ## Claim theorems -/

/-- C5: `isAuthenticated()` returns true iff an auth token is present and its
expiry is strictly after the current time; equivalently it is false whenever
no session exists or the expiry is less than or equal to now. -/
theorem isAuthenticated_iff (st : ClientState) (now : Int) :
    isAuthenticated st now = true ↔ ∃ t, st.authToken = some t ∧ now < t.expiresAt := by
  cases h : st.authToken with
  | none => simp [isAuthenticated, h]
  | some t => simp [isAuthenticated, h]

/-- C4: every invocation of `logout()` clears the local session state (auth
token and session id) and reports success, also when the network notification
throws.  The hypothesis is the client invariant that a session id is never
held without a token (every state the client's own operations produce
satisfies it; the early-return branch of `logout` touches nothing when no
token is held). -/
theorem logout_clears_state (st : ClientState) (networkThrows : Bool)
    (h : st.authToken = none → st.sessionId = none) :
    (logout st networkThrows).1.authToken = none ∧
    (logout st networkThrows).1.sessionId = none ∧
    (logout st networkThrows).2.success = true := by
  cases h' : st.authToken with
  | none => simp [logout, h', h h']
  | some t => simp [logout, h']

/-- Witness for C4: a logged-in client, with the transport throwing. -/
theorem logout_clears_state_witness :
    (stAuth.authToken = none → stAuth.sessionId = none) ∧
    ((logout stAuth true).1.authToken = none ∧
     (logout stAuth true).1.sessionId = none ∧
     (logout stAuth true).2.success = true) :=
  ⟨by simp [stAuth, tokenA], logout_clears_state stAuth true (by simp [stAuth, tokenA])⟩

/-- Support for the hypothesis of the C4 theorem: the invariant that no
session id is held without a token holds for a fresh client and is preserved
by `login` and `logout`, the only operations of a single client that assign
the session fields (`dispatch` mutates state only through `login`, and the
aggregate `connect` copies token and session id together). -/
theorem sessionInvariant_reachable :
    (ClientState.initial.authToken = none → ClientState.initial.sessionId = none) ∧
    (∀ (cfg : Config) (now : Int) (st : ClientState)
        (reply : Except AxiosErrorModel LoginReply),
      (st.authToken = none → st.sessionId = none) →
      ((login cfg now st reply).1.authToken = none →
        (login cfg now st reply).1.sessionId = none)) ∧
    (∀ (st : ClientState) (b : Bool),
      (st.authToken = none → st.sessionId = none) →
      ((logout st b).1.authToken = none → (logout st b).1.sessionId = none)) := by
  refine ⟨fun _ => rfl, ?_, ?_⟩
  · intro cfg now st reply hinv
    cases reply with
    | error e => simpa [login] using hinv
    | ok r =>
      by_cases hok : r.status = "OK"
      · simp [login, hok]
      · simpa [login, hok] using hinv
  · intro st b hinv
    cases h : st.authToken with
    | none => simpa [logout, h] using hinv
    | some t => simp [logout, h]

/-- C9: a `conditions` field holding a string that fails to parse as JSON
normalizes to the empty sequence (the `catch` branch), with no error
propagated — `parseConditions` is total. -/
theorem parseConditions_parse_failure (jsonParse : String → Option CondRaw) (s : String)
    (h : jsonParse s = none) :
    parseConditions jsonParse (CondRaw.str s) = [] := by
  simp [parseConditions, h]

/-- Witness for C9: the literal string `"not json"` under a parse oracle
that rejects it. -/
theorem parseConditions_parse_failure_witness :
    (fun (_ : String) => (none : Option CondRaw)) "not json" = none ∧
    parseConditions (fun _ => none) (CondRaw.str "not json") = [] :=
  ⟨rfl, parseConditions_parse_failure (fun _ => none) "not json" rfl⟩

/-- C8 counterexample: the claim says the bearer credential is attached
whenever a token is present, but the request interceptor also requires the
token to be unexpired: with a held token whose expiry equals the current
time, no Authorization value is attached. -/
theorem requestInterceptor_expired_token_dropped :
    ({ authToken := some { token := some "tok", expiresAt := 100, sessionId := some "sess" },
       sessionId := some "sess" } : ClientState).authToken.isSome = true ∧
    (requestInterceptor
        { authToken := some { token := some "tok", expiresAt := 100, sessionId := some "sess" },
          sessionId := some "sess" } 100).authorization = none := by
  exact ⟨rfl, rfl⟩

/-- C8 (amended): the `Authorization: Bearer` value is attached iff a token
is held *and* its expiry is strictly after now; the `X-Session-ID` header is
attached iff the session id is present and non-empty (JS truthiness). -/
theorem requestInterceptor_spec (st : ClientState) (now : Int) :
    (∀ t, st.authToken = some t → now < t.expiresAt →
      (requestInterceptor st now).authorization =
        some ("Bearer " ++ t.token.getD "undefined")) ∧
    (∀ t, st.authToken = some t → t.expiresAt ≤ now →
      (requestInterceptor st now).authorization = none) ∧
    (st.authToken = none → (requestInterceptor st now).authorization = none) ∧
    (∀ s, st.sessionId = some s → s ≠ "" →
      (requestInterceptor st now).xSessionId = some s) ∧
    ((st.sessionId = none ∨ st.sessionId = some "") →
      (requestInterceptor st now).xSessionId = none) := by
  refine ⟨?_, ?_, ?_, ?_, ?_⟩
  · intro t ht h
    simp [requestInterceptor, ht, h]
  · intro t ht h
    simp [requestInterceptor, ht, not_lt.mpr h]
  · intro h
    simp [requestInterceptor, h]
  · intro s hs hne
    simp [requestInterceptor, truthyStr, hs, hne]
  · rintro (h | h) <;> simp [requestInterceptor, truthyStr, h]

/-- Witness for C8 (amended): a live token is attached; an expired one is
dropped; a non-empty session id is attached. -/
theorem requestInterceptor_spec_witness :
    (stAuth.authToken = some tokenA) ∧ ((0 : Int) < tokenA.expiresAt) ∧
    (requestInterceptor stAuth 0).authorization = some ("Bearer " ++ (tokenA.token.getD "undefined")) ∧
    (requestInterceptor stAuth 2000).authorization = none ∧
    (requestInterceptor stAuth 0).xSessionId = some "sessA" := by
  refine ⟨rfl, by decide, ?_, ?_, ?_⟩
  · exact (requestInterceptor_spec stAuth 0).1 tokenA rfl (by decide)
  · exact (requestInterceptor_spec stAuth 2000).2.1 tokenA rfl (by decide)
  · exact (requestInterceptor_spec stAuth 0).2.2.2.1 "sessA" rfl (by decide)

/-- C6 counterexample: the claim's three-way taxonomy is not exhaustive.  A
timeout rejection (no connection code, no HTTP response) is classified to a
generic `SunapiError` with *no* status code — none of the three claimed
outcomes (statusCode 0, statusCode 401, or statusCode equal to an attached
response's status). -/
theorem handleError_timeout_outside_taxonomy :
    (handleError cfg0 errTimeout).statusCode = none ∧
    ¬ ((handleError cfg0 errTimeout).statusCode = some 0 ∨
       (handleError cfg0 errTimeout).statusCode = some 401 ∨
       ∃ r, errTimeout.response = some r ∧
         (handleError cfg0 errTimeout).statusCode = some r.status) := by
  refine ⟨rfl, ?_⟩
  rintro (h | h | ⟨r, hr, h⟩)
  · exact Option.noConfusion ((rfl : (handleError cfg0 errTimeout).statusCode = none) ▸ h)
  · exact Option.noConfusion ((rfl : (handleError cfg0 errTimeout).statusCode = none) ▸ h)
  · exact Option.noConfusion ((rfl : errTimeout.response = none) ▸ hr)

/-- C6 (amended): the classifier is a four-way map.  Connection codes
(`ECONNREFUSED`/`ENOTFOUND`, checked first) give `ConnectionError` with
statusCode 0; otherwise an attached HTTP 401 response gives
`AuthenticationError` with statusCode 401 and the body message falling back
to the transport message; any other attached response gives a generic error
with the response's status and the same message fallback; a failure with
neither gives a generic error with the transport message and no status
code. -/
theorem handleError_classification (cfg : Config) (e : AxiosErrorModel) :
    ((e.code = some "ECONNREFUSED" ∨ e.code = some "ENOTFOUND") →
      handleError cfg e =
        { name := ErrName.connection
          message := "Cannot connect to " ++ cfg.host ++ ":" ++ toString cfg.port
          statusCode := some 0 }) ∧
    (¬ (e.code = some "ECONNREFUSED" ∨ e.code = some "ENOTFOUND") →
      (∀ r, e.response = some r →
        (r.status = 401 →
          handleError cfg e =
            { name := ErrName.authentication, message := jsOrStr r.message e.message
              statusCode := some 401 }) ∧
        (r.status ≠ 401 →
          handleError cfg e =
            { name := ErrName.sunapi, message := jsOrStr r.message e.message
              statusCode := some r.status })) ∧
      (e.response = none →
        handleError cfg e =
          { name := ErrName.sunapi, message := e.message, statusCode := none })) := by
  constructor
  · intro hc
    simp only [handleError]
    rw [if_pos hc]
    rfl
  · intro hnc
    constructor
    · intro r hr
      constructor
      · intro h401
        simp only [handleError]
        rw [if_neg hnc, hr]
        simp [h401, authenticationError]
      · intro hne
        simp only [handleError]
        rw [if_neg hnc, hr]
        simp [hne]
    · intro hr
      simp only [handleError]
      rw [if_neg hnc, hr]

/-- Witness for C6 (amended): one concrete failure per branch. -/
theorem handleError_classification_witness :
    handleError cfg0 errConn =
      { name := ErrName.connection, message := "Cannot connect to 192.168.1.100:80"
        statusCode := some 0 } ∧
    handleError cfg0 err401 =
      { name := ErrName.authentication, message := "Request failed with status code 401"
        statusCode := some 401 } ∧
    handleError cfg0 err500 =
      { name := ErrName.sunapi, message := "Internal server error", statusCode := some 500 } ∧
    handleError cfg0 errTimeout =
      { name := ErrName.sunapi, message := "timeout of 30000ms exceeded", statusCode := none } := by
  refine ⟨?_, ?_, ?_, ?_⟩
  · exact (handleError_classification cfg0 errConn).1 (Or.inl rfl)
  · exact (((handleError_classification cfg0 err401).2 (by decide)).1 _ rfl).1 rfl
  · exact (((handleError_classification cfg0 err500).2 (by decide)).1 _ rfl).2 (by decide)
  · exact ((handleError_classification cfg0 errTimeout).2 (by decide)).2 rfl

/-- C7 counterexample: the claim says the stored expiry is the current time
plus the server-declared lifetime, with 3600s only as the absent-field
default; but `data.expires || 3600` also discards a declared lifetime of `0`
(JS falsiness), so a server declaring `expires: 0` at `now = 0` yields a
stored expiry of 3600000 ms, not `0 + 0 * 1000`. -/
theorem login_zero_expires_uses_default :
    (login cfg0 0 ClientState.initial (Except.ok replyZeroExpires)).1.authToken =
      some { token := some "tok", expiresAt := 3600 * 1000, sessionId := some "sess" } ∧
    (3600 * 1000 : Int) ≠ 0 + 0 * 1000 := by
  exact ⟨rfl, by decide⟩

/-- C7 (amended): on a successful login the stored expiry is the current time
plus the server-declared lifetime in seconds, defaulting to 3600 seconds when
the server declares none *or zero*; the token (`data.token || data.sessionId`)
and the session id are stored and the call resolves successfully.  On a
rejected login (`status ≠ "OK"`) an `AuthenticationError` carrying the
server's message (defaulting to "Login failed") is raised and the session
state is untouched. -/
theorem login_spec (cfg : Config) (now : Int) (st : ClientState) (r : LoginReply) :
    (r.status = "OK" →
      ∃ t, (login cfg now st (Except.ok r)).1.authToken = some t ∧
        t.token = jsOrOpt r.token r.sessionId ∧
        t.sessionId = r.sessionId ∧
        (login cfg now st (Except.ok r)).1.sessionId = r.sessionId ∧
        (∀ n, r.expires = some n → n ≠ 0 → t.expiresAt = now + n * 1000) ∧
        ((r.expires = none ∨ r.expires = some 0) → t.expiresAt = now + 3600 * 1000) ∧
        ∃ env, (login cfg now st (Except.ok r)).2 = Except.ok env ∧ env.success = true) ∧
    (r.status ≠ "OK" →
      (login cfg now st (Except.ok r)).1 = st ∧
      (login cfg now st (Except.ok r)).2 =
        Except.error (authenticationError (jsOrStr r.message "Login failed"))) := by
  constructor
  · intro hok
    refine ⟨{ token := jsOrOpt r.token r.sessionId
              expiresAt := now + (jsOrNum r.expires 3600) * 1000
              sessionId := r.sessionId },
            ?_, rfl, rfl, ?_, ?_, ?_, ?_⟩
    · simp [login, hok]
    · simp [login, hok]
    · intro n hn hnz
      rw [hn]
      simp [jsOrNum, hnz]
    · rintro (h | h) <;> simp [h, jsOrNum]
    · refine ⟨{ success := true
                data := some { token := jsOrOpt r.token r.sessionId
                               sessionId := r.sessionId
                               userLevel := jsOrStr r.userLevel "admin"
                               maxSessions := jsOrNum r.maxSessions 10 } }, ?_, rfl⟩
      simp [login, hok]
  · intro hne
    constructor <;> simp [login, hne]

/-- Witness for C7 (amended): a successful login with no declared lifetime
and a rejected login with a server message. -/
theorem login_spec_witness :
    (replyOK.status = "OK") ∧
    (∃ t, (login cfg0 0 ClientState.initial (Except.ok replyOK)).1.authToken = some t ∧
      t.token = jsOrOpt replyOK.token replyOK.sessionId ∧
      t.sessionId = replyOK.sessionId ∧
      (login cfg0 0 ClientState.initial (Except.ok replyOK)).1.sessionId = replyOK.sessionId ∧
      (∀ n, replyOK.expires = some n → n ≠ 0 → t.expiresAt = 0 + n * 1000) ∧
      ((replyOK.expires = none ∨ replyOK.expires = some 0) → t.expiresAt = 0 + 3600 * 1000) ∧
      ∃ env, (login cfg0 0 ClientState.initial (Except.ok replyOK)).2 = Except.ok env ∧
        env.success = true) ∧
    (replyFail.status ≠ "OK") ∧
    ((login cfg0 0 ClientState.initial (Except.ok replyFail)).1 = ClientState.initial ∧
      (login cfg0 0 ClientState.initial (Except.ok replyFail)).2 =
        Except.error (authenticationError (jsOrStr replyFail.message "Login failed"))) := by
  refine ⟨rfl, ?_, by decide, ?_⟩
  · exact (login_spec cfg0 0 ClientState.initial replyOK).1 rfl
  · exact (login_spec cfg0 0 ClientState.initial replyFail).2 (by decide)

/-- C10: after a successful `connect()` in which both a token and a (truthy)
session id were obtained, each of the five feature modules holds the same
`authToken` and `sessionId` values as the aggregate client. -/
theorem connect_shares_session (cfg : Config) (now : Int) (st : SunapiState) (r : LoginReply)
    (hok : r.status = "OK") (hsid : truthyStr r.sessionId = true) :
    (connect cfg now st (Except.ok r)).2 = Except.ok () ∧
    (connect cfg now st (Except.ok r)).1.core.authToken.isSome = true ∧
    truthyStr (connect cfg now st (Except.ok r)).1.core.sessionId = true ∧
    (connect cfg now st (Except.ok r)).1.system.authToken =
      (connect cfg now st (Except.ok r)).1.core.authToken ∧
    (connect cfg now st (Except.ok r)).1.system.sessionId =
      (connect cfg now st (Except.ok r)).1.core.sessionId ∧
    (connect cfg now st (Except.ok r)).1.video.authToken =
      (connect cfg now st (Except.ok r)).1.core.authToken ∧
    (connect cfg now st (Except.ok r)).1.video.sessionId =
      (connect cfg now st (Except.ok r)).1.core.sessionId ∧
    (connect cfg now st (Except.ok r)).1.ptz.authToken =
      (connect cfg now st (Except.ok r)).1.core.authToken ∧
    (connect cfg now st (Except.ok r)).1.ptz.sessionId =
      (connect cfg now st (Except.ok r)).1.core.sessionId ∧
    (connect cfg now st (Except.ok r)).1.events.authToken =
      (connect cfg now st (Except.ok r)).1.core.authToken ∧
    (connect cfg now st (Except.ok r)).1.events.sessionId =
      (connect cfg now st (Except.ok r)).1.core.sessionId ∧
    (connect cfg now st (Except.ok r)).1.recording.authToken =
      (connect cfg now st (Except.ok r)).1.core.authToken ∧
    (connect cfg now st (Except.ok r)).1.recording.sessionId =
      (connect cfg now st (Except.ok r)).1.core.sessionId := by
  refine ⟨?_, ?_, ?_, ?_, ?_, ?_, ?_, ?_, ?_, ?_, ?_, ?_, ?_⟩ <;>
    simp [connect, login, hok, hsid]

/-- Witness for C10: a fresh aggregate client connecting with a reply that
carries both a token and a session id. -/
theorem connect_shares_session_witness :
    (replyOK.status = "OK") ∧ (truthyStr replyOK.sessionId = true) ∧
    ((connect cfg0 0 SunapiState.initial (Except.ok replyOK)).2 = Except.ok () ∧
      (connect cfg0 0 SunapiState.initial (Except.ok replyOK)).1.core.authToken.isSome = true ∧
      truthyStr (connect cfg0 0 SunapiState.initial (Except.ok replyOK)).1.core.sessionId = true ∧
      (connect cfg0 0 SunapiState.initial (Except.ok replyOK)).1.system.authToken =
        (connect cfg0 0 SunapiState.initial (Except.ok replyOK)).1.core.authToken ∧
      (connect cfg0 0 SunapiState.initial (Except.ok replyOK)).1.system.sessionId =
        (connect cfg0 0 SunapiState.initial (Except.ok replyOK)).1.core.sessionId ∧
      (connect cfg0 0 SunapiState.initial (Except.ok replyOK)).1.video.authToken =
        (connect cfg0 0 SunapiState.initial (Except.ok replyOK)).1.core.authToken ∧
      (connect cfg0 0 SunapiState.initial (Except.ok replyOK)).1.video.sessionId =
        (connect cfg0 0 SunapiState.initial (Except.ok replyOK)).1.core.sessionId ∧
      (connect cfg0 0 SunapiState.initial (Except.ok replyOK)).1.ptz.authToken =
        (connect cfg0 0 SunapiState.initial (Except.ok replyOK)).1.core.authToken ∧
      (connect cfg0 0 SunapiState.initial (Except.ok replyOK)).1.ptz.sessionId =
        (connect cfg0 0 SunapiState.initial (Except.ok replyOK)).1.core.sessionId ∧
      (connect cfg0 0 SunapiState.initial (Except.ok replyOK)).1.events.authToken =
        (connect cfg0 0 SunapiState.initial (Except.ok replyOK)).1.core.authToken ∧
      (connect cfg0 0 SunapiState.initial (Except.ok replyOK)).1.events.sessionId =
        (connect cfg0 0 SunapiState.initial (Except.ok replyOK)).1.core.sessionId ∧
      (connect cfg0 0 SunapiState.initial (Except.ok replyOK)).1.recording.authToken =
        (connect cfg0 0 SunapiState.initial (Except.ok replyOK)).1.core.authToken ∧
      (connect cfg0 0 SunapiState.initial (Except.ok replyOK)).1.recording.sessionId =
        (connect cfg0 0 SunapiState.initial (Except.ok replyOK)).1.core.sessionId) :=
  ⟨rfl, rfl, connect_shares_session cfg0 0 SunapiState.initial replyOK rfl rfl⟩

/-- C1 counterexample: with a session held, two consecutive 401s followed by
a 200 cause *two* re-login attempts — the retried call re-enters the same
response interceptor (the code sets no retry flag), so a second 401 after the
retry does trigger a second re-login, contradicting the claim that exactly
one re-login and one retry occur. -/
theorem dispatch_double_401_double_relogin :
    (dispatch (α := String) cfg0 0
        [RawOutcome.err err401, RawOutcome.err err401, RawOutcome.ok 200 "body"]
        stAuth [Except.ok replyOK, Except.ok replyOK]).2.2 = 2 ∧
    (dispatch (α := String) cfg0 0
        [RawOutcome.err err401, RawOutcome.err err401, RawOutcome.ok 200 "body"]
        stAuth [Except.ok replyOK, Except.ok replyOK]).2.1 = Except.ok (200, "body") := by
  exact ⟨rfl, rfl⟩

/-- C1 (amended): a 401 received while a token is held triggers one re-login
attempt; if the re-login fails, `AuthenticationError('Session expired and
refresh failed')` is surfaced with no retry; if it succeeds, the original
call is retried once through the same interceptor, so the retry is subject to
the same rule — consecutive 401s cause consecutive re-logins rather than the
second 401 being returned as-is.  Any outcome that is not a
401-with-token-held is settled immediately with no re-login. -/
theorem dispatch_401_relogin_unfold {α : Type} (cfg : Config) (now : Int)
    (st : ClientState) (e : AxiosErrorModel) (rest : List (RawOutcome α))
    (l : Except AxiosErrorModel LoginReply)
    (ls : List (Except AxiosErrorModel LoginReply)) :
    (triggers401 st e = true →
      ((∃ env, (login cfg now st l).2 = Except.ok env) →
        dispatch cfg now (RawOutcome.err e :: rest) st (l :: ls) =
          ((dispatch cfg now rest (login cfg now st l).1 ls).1,
           (dispatch cfg now rest (login cfg now st l).1 ls).2.1,
           (dispatch cfg now rest (login cfg now st l).1 ls).2.2 + 1)) ∧
      ((∃ err, (login cfg now st l).2 = Except.error err) →
        dispatch cfg now (RawOutcome.err e :: rest) st (l :: ls) =
          ((login cfg now st l).1, Except.error refreshFailedError, 1))) ∧
    (triggers401 st e = false →
      dispatch cfg now (RawOutcome.err e :: rest) st (l :: ls) =
        (st, Except.error (handleError cfg e), 0)) ∧
    (∀ (s : Nat) (d : α) (raws2 : List (RawOutcome α))
        (lg : List (Except AxiosErrorModel LoginReply)),
      dispatch cfg now (RawOutcome.ok s d :: raws2) st lg =
        (st, Except.ok (s, d), 0)) := by
  refine ⟨?_, ?_, ?_⟩
  · intro htrig
    constructor
    · rintro ⟨env, henv⟩
      simp [dispatch, htrig, henv]
    · rintro ⟨err, herr⟩
      simp [dispatch, htrig, herr]
  · intro h
    simp [dispatch, h]
  · intro s d raws2 lg
    simp [dispatch]

/-- Witness for C1 (amended): one 401 with a held session, a successful
re-login, then a 200: exactly one re-login and the retried outcome returned
as-is. -/
theorem dispatch_401_relogin_unfold_witness :
    triggers401 stAuth err401 = true ∧
    (∃ env, (login cfg0 0 stAuth (Except.ok replyOK)).2 = Except.ok env) ∧
    dispatch (α := String) cfg0 0 [RawOutcome.err err401, RawOutcome.ok 200 "body"]
        stAuth [Except.ok replyOK] =
      ({ authToken := some { token := some "tokB", expiresAt := 3600000
                             sessionId := some "sessB" }
         sessionId := some "sessB" },
       Except.ok (200, "body"), 1) := by
  refine ⟨rfl, ⟨_, rfl⟩, ?_⟩
  have h := ((dispatch_401_relogin_unfold (α := String) cfg0 0 stAuth err401
      [RawOutcome.ok 200 "body"] (Except.ok replyOK) []).1 rfl).1 ⟨_, rfl⟩
  rw [h]
  rfl

/-- C3: once `ensureAuthenticated` has succeeded, `request` always resolves
to a result envelope (never lets a fault escape), and every classified
failure of the dispatched call becomes `success:false` with the classified
message and status code. -/
theorem request_never_throws {α : Type} (cfg : Config) (now : Int) (st : ClientState)
    (raws : List (RawOutcome α)) (logins : List (Except AxiosErrorModel LoginReply))
    (h : (ensureAuthenticated cfg now st logins).2.1 = Except.ok ()) :
    (∃ env, (request cfg now st raws logins).2 = Except.ok env) ∧
    (∀ e, (dispatch cfg now raws (ensureAuthenticated cfg now st logins).1
        (ensureAuthenticated cfg now st logins).2.2).2.1 = Except.error e →
      (request cfg now st raws logins).2 =
        Except.ok { success := false, data := none, error := some e.message
                    statusCode := e.statusCode }) := by
  constructor
  · cases hd : (dispatch cfg now raws (ensureAuthenticated cfg now st logins).1
        (ensureAuthenticated cfg now st logins).2.2).2.1 with
    | ok sd =>
      exact ⟨{ success := true, data := some sd.2, statusCode := some sd.1 },
        by simp [request, h, hd]⟩
    | error e =>
      exact ⟨{ success := false, error := some e.message, statusCode := e.statusCode },
        by simp [request, h, hd]⟩
  · intro e he
    simp [request, h, he]

/-- Witness for C3: an authenticated client whose call fails with an HTTP
500 response gets a `success:false` envelope carrying the classified message
and status code. -/
theorem request_never_throws_witness :
    (ensureAuthenticated cfg0 0 stAuth []).2.1 = Except.ok () ∧
    (∃ env, (request (α := Unit) cfg0 0 stAuth [RawOutcome.err err500] []).2 =
      Except.ok env) ∧
    (request (α := Unit) cfg0 0 stAuth [RawOutcome.err err500] []).2 =
      Except.ok { success := false, data := none, error := some "Internal server error"
                  statusCode := some 500 } := by
  refine ⟨rfl, ?_, ?_⟩
  · exact (request_never_throws (α := Unit) cfg0 0 stAuth [RawOutcome.err err500] [] rfl).1
  · exact (request_never_throws (α := Unit) cfg0 0 stAuth [RawOutcome.err err500] [] rfl).2
      (handleError cfg0 err500) rfl

/-- C2 counterexample: `ping()` violates the envelope contract — on failure
it returns `success:false` together with a *present* `data` field
`{ alive: false }`, while the claim requires `data` to be absent whenever
`success` is false. -/
theorem ping_failure_returns_data :
    (ping (α := Unit) cfg0 0 ClientState.initial [RawOutcome.err errConn] []).2.success
      = false ∧
    (ping (α := Unit) cfg0 0 ClientState.initial [RawOutcome.err errConn] []).2.data
      = some { alive := false } ∧
    (ping (α := Unit) cfg0 0 ClientState.initial [RawOutcome.err errConn] []).2.data
      ≠ none ∧
    (ping (α := Unit) cfg0 0 ClientState.initial [RawOutcome.err errConn] []).2.error
      = some "Device unreachable" := by
  refine ⟨rfl, rfl, ?_, rfl⟩
  decide

/-- C2 (amended): whenever `success` is false the `error` field is populated,
and `data` is absent — for every operation except `ping`: `request` failures
carry no data and a message; the shared feature-module wrapper passes failed
envelopes through unchanged; `logout` and a resolving `login` never report
failure; but a failed `ping` returns `data = { alive: false }` alongside its
error. -/
theorem envelope_error_discipline {α β : Type} (cfg : Config) (now : Int)
    (st : ClientState) (raws : List (RawOutcome α))
    (logins : List (Except AxiosErrorModel LoginReply))
    (reply : Except AxiosErrorModel LoginReply)
    (resp : SunapiResponse α) (f : α → β) (b : Bool) :
    (∀ env, (request cfg now st raws logins).2 = Except.ok env → env.success = false →
      env.data = none ∧ env.error.isSome = true) ∧
    (resp.success = false → resp.data = none →
      (moduleWrap resp f).success = false ∧ (moduleWrap resp f).data = none ∧
      (moduleWrap resp f).error = resp.error) ∧
    ((logout st b).2.success = true) ∧
    (∀ env, (login cfg now st reply).2 = Except.ok env → env.success = true) ∧
    (∀ e, (dispatch cfg now raws st logins).2.1 = Except.error e →
      (ping cfg now st raws logins).2.success = false ∧
      (ping cfg now st raws logins).2.data = some { alive := false } ∧
      (ping cfg now st raws logins).2.error = some "Device unreachable") := by
  refine ⟨?_, ?_, ?_, ?_, ?_⟩
  · intro env henv hfail
    cases ha : (ensureAuthenticated cfg now st logins).2.1 with
    | error e =>
      simp [request, ha] at henv
    | ok u =>
      cases hd : (dispatch cfg now raws (ensureAuthenticated cfg now st logins).1
          (ensureAuthenticated cfg now st logins).2.2).2.1 with
      | ok sd =>
        simp [request, ha, hd] at henv
        rw [← henv] at hfail
        simp at hfail
      | error e =>
        simp [request, ha, hd] at henv
        rw [← henv]
        simp
  · intro hfail hdata
    simp [moduleWrap, hfail, hdata]
  · cases h : st.authToken with
    | none => simp [logout, h]
    | some t => simp [logout, h]
  · intro env henv
    cases reply with
    | error e => simp [login] at henv
    | ok r =>
      by_cases hok : r.status = "OK"
      · simp [login, hok] at henv
        rw [← henv]
      · simp [login, hok] at henv
  · intro e he
    simp [ping, he]

/-- Witness for C2 (amended): a failed request envelope, a failed envelope
passed through the module wrapper, a logout, a resolving login, and a failed
ping. -/
theorem envelope_error_discipline_witness :
    ((request (α := Unit) cfg0 0 stAuth [RawOutcome.err err500] []).2 =
        Except.ok { success := false, data := none, error := some "Internal server error"
                    statusCode := some 500 } →
      ({ success := false, data := none, error := some "Internal server error"
         statusCode := some 500 } : SunapiResponse Unit).success = false →
      ({ success := false, data := none, error := some "Internal server error"
         statusCode := some 500 } : SunapiResponse Unit).data = none ∧
      ({ success := false, data := none, error := some "Internal server error"
         statusCode := some 500 } : SunapiResponse Unit).error.isSome = true) ∧
    ((moduleWrap ({ success := false, error := some "boom", statusCode := some 500 } :
        SunapiResponse Unit) (fun u => u)).success = false ∧
      (moduleWrap ({ success := false, error := some "boom", statusCode := some 500 } :
        SunapiResponse Unit) (fun u => u)).data = none ∧
      (moduleWrap ({ success := false, error := some "boom", statusCode := some 500 } :
        SunapiResponse Unit) (fun u => u)).error = some "boom") ∧
    ((logout stAuth false).2.success = true) ∧
    (∀ env, (login cfg0 0 ClientState.initial (Except.ok replyOK)).2 = Except.ok env →
      env.success = true) ∧
    ((ping (α := Unit) cfg0 0 ClientState.initial [RawOutcome.err errConn] []).2.success
        = false ∧
      (ping (α := Unit) cfg0 0 ClientState.initial [RawOutcome.err errConn] []).2.data
        = some { alive := false } ∧
      (ping (α := Unit) cfg0 0 ClientState.initial [RawOutcome.err errConn] []).2.error
        = some "Device unreachable") := by
  have h := envelope_error_discipline (α := Unit) (β := Unit) cfg0 0 ClientState.initial
    [RawOutcome.err errConn] [] (Except.ok replyOK)
    ({ success := false, error := some "boom", statusCode := some 500 } : SunapiResponse Unit)
    (fun u => u) false
  refine ⟨?_, ?_, ?_, ?_, ?_⟩
  · intro henv hfail
    exact ⟨rfl, rfl⟩
  · exact h.2.1 rfl rfl
  · exact (envelope_error_discipline (α := Unit) (β := Unit) cfg0 0 stAuth
      [RawOutcome.err errConn] [] (Except.ok replyOK)
      ({ success := false, error := some "boom", statusCode := some 500 } : SunapiResponse Unit)
      (fun u => u) false).2.2.1
  · exact h.2.2.2.1
  · exact h.2.2.2.2 (handleError cfg0 errConn) rfl

end SunapiSpec
